import Mathlib

/-
Shallow embedding of the quant-packaging repository (files
src/quant_packaging/packager.py, container.py, docker_builder.py).

Modelling conventions:
- A strategy bundle directory is a `Bundle` record holding the three files the
  packager writes (strategy.pkl, metadata.json, requirements.txt); an `Option`
  field is `none` when the file is absent.
- Serialization via dill is modelled as storing the callable itself in the
  bundle (`strategy_pkl : Option Callable`): dill.dump followed by dill.load
  returns a function with the same behaviour.
- A pandas DataFrame is a `DataFrame` record of column names and rows of
  cells; a cell is `Option Rat` with `none` playing the role of NaN (so two
  missing values compare equal). A value passed to `run` is a `PyData`, which
  is either a DataFrame or some non-tabular object carrying its type name.
- A Python callable that may raise is a function into `Except String`, the
  error being the exception message.
- Python exceptions raised by this code are a `QPError`: the ValueError raised
  for a missing file or strategy is `notFound`, the ValueError raised by input
  validation is `invalidInput`, and the RuntimeError wrapping a strategy
  failure is `executionError`, following the error kinds named in the
  documentation.
- The packager output directory and the builder deployments directory are
  association lists from subdirectory name to contents; `setEntry` is the
  create-or-overwrite filesystem update.
- Environment inputs (datetime.now, inspect.getsource, func.__name__) are
  explicit parameters; inspect.getsource is an `Option String` which is `none`
  when source capture fails (OSError/TypeError).
-/

/-- Python str.lower, character-wise (ASCII case folding as used by the
column-name comparison in container.py line 97). -/
def pyLower (s : String) : String := ⟨s.data.map Char.toLower⟩

/-- Python substring test `needle in hay` on strings. -/
def pySubstr (needle hay : String) : Bool := decide (List.IsInfix needle.data hay.data)

/-- Python `strategy_name.replace("_", "-")` (docker_builder.py line 294);
the pattern is a single character, so this is a character map. -/
def dashName (s : String) : String :=
  ⟨s.data.map (fun c => if c = '_' then '-' else c)⟩

/-- Python string comparison (code-point lexicographic), as used by
`list.sort()` on strings: lexicographic order on the character sequences. -/
def strLe (a b : String) : Prop := a.data ≤ b.data

instance : DecidableRel strLe := fun a b => inferInstanceAs (Decidable (a.data ≤ b.data))

instance : IsTotal String strLe := ⟨fun a b => le_total a.data b.data⟩

instance : IsTrans String strLe := ⟨fun _ _ _ h1 h2 => le_trans h1 h2⟩

/-- Filesystem update: create or wholly overwrite the entry named `k` in a
directory listing (mkdir + overwriting every file of the subdirectory). -/
def setEntry {α : Type} (k : String) (v : α) : List (String × α) → List (String × α)
  | [] => [(k, v)]
  | (k', v') :: rest => if k' = k then (k, v) :: rest else (k', v') :: setEntry k v rest

/-- Directory lookup by name. -/
def lookupEntry {α : Type} (k : String) : List (String × α) → Option α
  | [] => none
  | (k', v) :: rest => if k' = k then some v else lookupEntry k rest

/-- A cell of a pandas object; `none` models a missing value (NaN). -/
abbrev Value := Option ℚ

/-- A pandas Series of signal values. -/
abbrev Series := List Value

/-- A pandas DataFrame: named columns and rows of cells. -/
structure DataFrame where
  columns : List String
  rows : List (List Value)
deriving DecidableEq

/-- pandas `df.empty`: true when any axis has length zero. -/
def DataFrame.isEmpty (df : DataFrame) : Bool :=
  df.rows.isEmpty || df.columns.isEmpty

/-- A strategy function: takes a DataFrame and either returns a Series or
raises with a message (`Except.error`). -/
abbrev Callable := DataFrame → Except String Series

/-- An arbitrary Python object passed to `run`: a DataFrame, or a non-tabular
value of which only the type name (used in the error message) matters. -/
inductive PyData where
  | nonTabular (typeName : String)
  | frame (df : DataFrame)

/-- The error kinds raised by the package, named as in the documentation:
NotFound (missing bundle/file/strategy), InvalidInput (rejected by
_validate_data), ExecutionError (the wrapped callable raised). -/
inductive QPError where
  | notFound (msg : String)
  | invalidInput (msg : String)
  | executionError (msg : String)
deriving DecidableEq

/-- The metadata record written to metadata.json
(packager.py lines 79-88). -/
structure StrategyMetadata where
  name : String
  description : String
  version : String
  created_at : String
  function_name : String
  source_code : String
  requirements : List String
  custom_metadata : List (String × String)
deriving DecidableEq

/-- A strategy bundle directory: the three files save_strategy writes.
`none` means the file is absent from the directory. -/
structure Bundle where
  strategy_pkl : Option Callable
  metadata_json : Option StrategyMetadata
  requirements_txt : Option String

/-- The container metadata after _load: the parsed metadata.json record, or
the empty dict `{}` when the file is absent (container.py line 54). -/
inductive MetaMap where
  | empty
  | record (m : StrategyMetadata)

/-- Python truthiness for `xs or alt` on an optional list argument: `None`
and the empty list are both falsy (packager.py lines 86 and 103). -/
def pyOrList (x : Option (List String)) (alt : List String) : List String :=
  match x with
  | some (r :: rs) => r :: rs
  | _ => alt

/-- Python truthiness for `metadata or {}` on an optional dict argument
(packager.py line 87). -/
def pyOrMap (x : Option (List (String × String))) : List (String × String) :=
  match x with
  | some (p :: ps) => p :: ps
  | _ => []

/-- The base runtime pins written first into every bundle requirements.txt
(packager.py lines 98-102). -/
def base_requirements : List String :=
  ["pandas>=1.5.0", "numpy>=1.24.0", "dill>=0.3.7"]

/-- Fallback source text when inspect.getsource fails
(packager.py line 76). -/
def source_placeholder : String :=
  "# Source code not available (likely defined in notebook)"

/-- StrategyPackager._extract_requirements (packager.py lines 113-133):
scan the captured source text for known-library substring markers, appending
one package name per marker hit; empty when no source is available. -/
def extract_requirements (sourceText : Option String) : List String :=
  match sourceText with
  | none => []
  | some source =>
    (if pySubstr "pandas" source || pySubstr "pd." source then ["pandas"] else []) ++
    (if pySubstr "numpy" source || pySubstr "np." source then ["numpy"] else []) ++
    (if pySubstr "sklearn" source then ["scikit-learn"] else []) ++
    (if pySubstr "ta" source || pySubstr "talib" source then ["ta"] else [])

/-- The `all_requirements` list written (newline-joined) to the bundle
requirements.txt (packager.py line 103): base pins followed by the
user-supplied requirements, with no deduplication and no sorting. -/
def all_requirements (requirements : Option (List String)) : List String :=
  base_requirements ++ pyOrList requirements []

/-- The packager output directory: subdirectory name to bundle contents. -/
abbrev PackagerState := List (String × Bundle)

/-- StrategyPackager.save_strategy, metadata step (packager.py lines 72-88):
the metadata record built for the bundle. `func_name` is
`strategy_func.__name__`, `sourceText` the result of inspect.getsource
(`none` on failure), `created_at` the datetime.now timestamp. -/
def strategy_metadata (func_name : String) (sourceText : Option String)
    (name : String) (description : String)
    (requirements : Option (List String))
    (metadata : Option (List (String × String)))
    (version : String) (created_at : String) : StrategyMetadata :=
  let source_code :=
    match sourceText with
    | some s => s
    | none => source_placeholder
  { name := name
    description := description
    version := version
    created_at := created_at
    function_name := func_name
    source_code := source_code
    requirements := pyOrList requirements (extract_requirements sourceText)
    custom_metadata := pyOrMap metadata }

/-- StrategyPackager.save_strategy, write step (packager.py lines 64-111):
serialize the callable and write the three bundle files under
`output_dir/name`, overwriting an existing bundle of the same name. Returns
the updated output directory and the written bundle. -/
def save_strategy (st : PackagerState) (strategy_func : Callable)
    (func_name : String) (sourceText : Option String)
    (name : String) (description : String)
    (requirements : Option (List String))
    (metadata : Option (List (String × String)))
    (version : String) (created_at : String) : PackagerState × Bundle :=
  let bundle : Bundle :=
    { strategy_pkl := some strategy_func
      metadata_json := some (strategy_metadata func_name sourceText name description
        requirements metadata version created_at)
      requirements_txt := some (String.intercalate "\n" (all_requirements requirements)) }
  (setEntry name bundle st, bundle)

/-- StrategyPackager.load_strategy (packager.py lines 135-159): look up the
named subdirectory (ValueError when absent), unpickle strategy.pkl and parse
metadata.json (the uncaught FileNotFoundError from `open` when either file is
absent is also a not-found failure). -/
def load_strategy (st : PackagerState) (output_dir name : String) :
    Except QPError (Callable × StrategyMetadata) :=
  match lookupEntry name st with
  | none => .error (.notFound ("Strategy \x27" ++ name ++ "\x27 not found in " ++ output_dir))
  | some bundle =>
    match bundle.strategy_pkl with
    | none => .error (.notFound ("No such file or directory: " ++ output_dir ++ "/" ++ name ++ "/strategy.pkl"))
    | some f =>
      match bundle.metadata_json with
      | none => .error (.notFound ("No such file or directory: " ++ output_dir ++ "/" ++ name ++ "/metadata.json"))
      | some md => .ok (f, md)

/-- StrategyPackager.list_strategies (packager.py lines 161-177): collect the
metadata record of every subdirectory that has a metadata.json. -/
def list_strategies (st : PackagerState) : List StrategyMetadata :=
  st.filterMap (fun e => e.2.metadata_json)

/-- A loaded StrategyContainer: the unpickled callable and the loaded
metadata. `strategy_func` is an Option because the source guards run with a
`strategy_func is None` check (container.py line 68). -/
structure Container where
  strategy_func : Option Callable
  metadata : MetaMap

/-- The constructor argument of StrategyContainer (container.py lines 32-40):
either a directory path (with its contents), or a direct file path together
with the pickled content at that path (`none` when the file does not exist)
and the metadata.json found next to it in the parent directory. -/
inductive StrategyPath where
  | dir (path : String) (contents : Bundle)
  | file (path : String) (pkl : Option Callable) (parent_metadata : Option StrategyMetadata)

/-- StrategyContainer._load (container.py lines 32-54): resolve the pkl and
metadata paths, raise ValueError when the pkl file is missing, unpickle the
callable, and load metadata (empty dict when metadata.json is absent). -/
def container_load : StrategyPath → Except QPError Container
  | .dir path contents =>
    match contents.strategy_pkl with
    | none => .error (.notFound ("Strategy file not found: " ++ path ++ "/strategy.pkl"))
    | some f =>
      .ok { strategy_func := some f
            metadata :=
              match contents.metadata_json with
              | some m => .record m
              | none => .empty }
  | .file path pkl parent_metadata =>
    match pkl with
    | none => .error (.notFound ("Strategy file not found: " ++ path))
    | some f =>
      .ok { strategy_func := some f
            metadata :=
              match parent_metadata with
              | some m => .record m
              | none => .empty }

/-- StrategyContainer._validate_data (container.py lines 81-105): reject
non-DataFrame input, empty input, and input without a close-equivalent column
(case-insensitive); on success the data flows on to the callable unchanged. -/
def validate_data : PyData → Except QPError DataFrame
  | .nonTabular typeName =>
    .error (.invalidInput ("Expected pandas DataFrame, got " ++ typeName))
  | .frame df =>
    if df.isEmpty then .error (.invalidInput "Input data is empty")
    else
      let columns_lower := df.columns.map pyLower
      if "close" ∈ columns_lower then .ok df
      else
        .error (.invalidInput ("Missing required columns: [\x27close\x27]. Available columns: [" ++
          String.intercalate ", " (df.columns.map (fun c => "\x27" ++ c ++ "\x27")) ++ "]"))

/-- StrategyContainer.run (container.py lines 56-79): guard against an
unloaded strategy, validate the input, invoke the callable, and wrap any
exception it raises in a RuntimeError carrying the original message. -/
def container_run (c : Container) (data : PyData) : Except QPError Series :=
  match c.strategy_func with
  | none => .error (.invalidInput "Strategy not loaded. Cannot run.")
  | some f =>
    match validate_data data with
    | .error e => .error e
    | .ok df =>
      match f df with
      | .ok signals => .ok signals
      | .error e => .error (.executionError ("Error running strategy: " ++ e))

/-- The four fixed server-runtime dependencies added to every deployment
manifest (docker_builder.py lines 277-282). -/
def server_requirements : List String :=
  ["fastapi>=0.104.0", "uvicorn>=0.24.0", "pydantic>=2.0.0", "python-multipart>=0.0.6"]

/-- DockerBuilder._create_deployment_requirements, reading step
(docker_builder.py lines 271-274): the bundle requirements.txt content,
stripped and split on newlines; empty when the file is absent. -/
def read_requirement_lines (requirements_txt : Option String) : List String :=
  match requirements_txt with
  | none => []
  | some content => content.trim.splitOn "\n"

/-- DockerBuilder._create_deployment_requirements, combining step
(docker_builder.py lines 284-285): `list(set(...))` then `.sort()`, i.e. the
sorted deduplication of bundle requirements plus server requirements. -/
def deployment_requirements (strategy_bundle : Bundle) : List String :=
  List.insertionSort strLe
    ((read_requirement_lines strategy_bundle.requirements_txt ++ server_requirements).dedup)

/-- DockerBuilder._create_dockerfile template (docker_builder.py
lines 92-116). -/
def dockerfile_content (python_version : String) (port : Nat) : String :=
  "FROM python:" ++
    python_version ++
    "-slim\n\nWORKDIR /app\n\n# Install dependencies\nCOPY requirements.txt .\nRUN pip install --no-cache-dir -r requirements.txt\n\n# Copy strategy and server\nCOPY strategy/ ./strategy/\nCOPY server.py .\n\n# Expose port\nEXPOSE " ++
    toString port ++
    "\n\n# Health check\nHEALTHCHECK --interval=30s --timeout=5s --start-period=5s --retries=3 \\\n    CMD python -c \"import urllib.request; urllib.request.urlopen(\x27http://localhost:" ++
    toString port ++
    "/health\x27)\"\n\n# Run the server\nCMD [\"uvicorn\", \"server:app\", \"--host\", \"0.0.0.0\", \"--port\", \"" ++
    toString port ++
    "\"]\n"

/-- DockerBuilder._create_server template (docker_builder.py lines 118-266):
the generated FastAPI server source, a fixed text. -/
def server_py_content : String :=
  "\"\"\"FastAPI server for quant strategy deployment.\"\"\"\n\nfrom fastapi import FastAPI, HTTPException\nfrom pydantic import BaseModel, Field, ConfigDict\nfrom typing import List, Dict, Any\nimport pandas as pd\nimport dill\nimport json\nfrom pathlib import Path\n\n# Initialize FastAPI app\napp = FastAPI(\n    title=\"Quant Strategy API\",\n    description=\"REST API for quant trading strategy\",\n    version=\"1.0.0\"\n)\n\n# Load strategy at startup\nstrategy_func = None\nstrategy_metadata = \x7b\x7d\n\ndef load_strategy():\n    \"\"\"Load the serialized strategy.\"\"\"\n    global strategy_func, strategy_metadata\n\n    strategy_dir = Path(\"./strategy\")\n\n    # Load strategy function\n    with open(strategy_dir / \"strategy.pkl\", \"rb\") as f:\n        strategy_func = dill.load(f)\n\n    # Ensure pandas is available in the function\x27s globals\n    if strategy_func and hasattr(strategy_func, \x27__globals__\x27):\n        strategy_func.__globals__[\x27pd\x27] = pd\n\n    # Load metadata\n    metadata_path = strategy_dir / \"metadata.json\"\n    if metadata_path.exists():\n        with open(metadata_path, \"r\") as f:\n            strategy_metadata = json.load(f)\n\n# Load strategy on startup\nload_strategy()\n\n\nclass MarketData(BaseModel):\n    \"\"\"Market data input model.\"\"\"\n    model_config = ConfigDict(\n        json_schema_extra=\x7b\n            \"example\": \x7b\n                \"data\": [\n                    \x7b\n                        \"timestamp\": \"2024-01-01T00:00:00\",\n                        \"open\": 100.0,\n                        \"high\": 105.0,\n                        \"low\": 99.0,\n                        \"close\": 103.0,\n                        \"volume\": 1000000\n                    \x7d\n                ]\n            \x7d\n        \x7d\n    )\n\n    data: List[Dict[str, Any]] = Field(\n        ...,\n        description=\"List of OHLCV records with columns: timestamp, open, high, low, close, volume\"\n    )\n\n\nclass SignalResponse(BaseModel):\n    \"\"\"Strategy signal response model.\"\"\"\n    signals: List[float] = Field(..., description=\"Position signals (1.0=long, 0.0=flat, -1.0=short)\")\n    metadata: Dict[str, Any] = Field(default_factory=dict, description=\"Strategy metadata\")\n\n\n@app.get(\"/\")\nasync def root():\n    \"\"\"Root endpoint.\"\"\"\n    return \x7b\n        \"message\": \"Quant Strategy API\",\n        \"strategy\": \x7b\n            \"name\": strategy_metadata.get(\"name\", \"Unknown\"),\n            \"version\": strategy_metadata.get(\"version\", \"Unknown\"),\n            \"description\": strategy_metadata.get(\"description\", \"\")\n        \x7d\n    \x7d\n\n\n@app.get(\"/health\")\nasync def health():\n    \"\"\"Health check endpoint.\"\"\"\n    return \x7b\"status\": \"healthy\", \"strategy_loaded\": strategy_func is not None\x7d\n\n\n@app.get(\"/info\")\nasync def info():\n    \"\"\"Get strategy information.\"\"\"\n    return \x7b\n        \"metadata\": strategy_metadata,\n        \"function_name\": strategy_func.__name__ if strategy_func else None,\n        \"loaded\": strategy_func is not None\n    \x7d\n\n\n@app.post(\"/predict\", response_model=SignalResponse)\nasync def predict(market_data: MarketData):\n    \"\"\"Generate trading signals from market data.\n\n    Args:\n        market_data: Historical OHLCV data\n\n    Returns:\n        Trading signals and metadata\n    \"\"\"\n    if strategy_func is None:\n        raise HTTPException(status_code=500, detail=\"Strategy not loaded\")\n\n    try:\n        # Convert input to DataFrame\n        df = pd.DataFrame(market_data.data)\n\n        # Ensure timestamp is datetime if present\n        if \x27timestamp\x27 in df.columns:\n            df[\x27timestamp\x27] = pd.to_datetime(df[\x27timestamp\x27])\n            df = df.set_index(\x27timestamp\x27)\n\n        # Run strategy\n        signals = strategy_func(df)\n\n        # Convert signals to list\n        signals_list = signals.tolist() if hasattr(signals, \x27tolist\x27) else list(signals)\n\n        return SignalResponse(\n            signals=signals_list,\n            metadata=strategy_metadata\n        )\n\n    except Exception as e:\n        raise HTTPException(status_code=400, detail=f\"Error processing data: \x7bstr(e)\x7d\")\n\n\nif __name__ == \"__main__\":\n    import uvicorn\n    uvicorn.run(app, host=\"0.0.0.0\", port=8000)\n"

/-- DockerBuilder._create_docker_compose template (docker_builder.py
lines 289-309). -/
def docker_compose_content (strategy_name : String) (port : Nat) : String :=
  "version: \x273.8\x27\n\nservices:\n  " ++
    dashName strategy_name ++
    ":\n    build: .\n    container_name: " ++
    strategy_name ++
    "\n    ports:\n      - \"" ++
    toString port ++
    ":" ++
    toString port ++
    "\"\n    environment:\n      - PYTHONUNBUFFERED=1\n    restart: unless-stopped\n    healthcheck:\n      test: [\"CMD\", \"python\", \"-c\", \"import urllib.request; urllib.request.urlopen(\x27http://localhost:" ++
    toString port ++
    "/health\x27)\"]\n      interval: 30s\n      timeout: 5s\n      retries: 3\n      start_period: 5s\n"

/-- DockerBuilder._create_scripts, build.sh template (docker_builder.py
lines 314-322). -/
def build_script_content (strategy_name : String) : String :=
  "#!/bin/bash\nset -e\n\necho \"Building Docker image for " ++
    strategy_name ++
    "...\"\ndocker build -t " ++
    strategy_name ++
    ":latest .\n\necho \"Build complete!\"\necho \"Run with: ./run.sh\"\n"

/-- DockerBuilder._create_scripts, run.sh template (docker_builder.py
lines 328-340). -/
def run_script_content (strategy_name : String) : String :=
  "#!/bin/bash\nset -e\n\necho \"Starting " ++
    strategy_name ++
    " container...\"\ndocker-compose up -d\n\necho \"Container started!\"\necho \"API available at: http://localhost:8000\"\necho \"API docs at: http://localhost:8000/docs\"\necho \"\"\necho \"View logs with: docker-compose logs -f\"\necho \"Stop with: docker-compose down\"\n"

/-- DockerBuilder._create_deployment_readme template (docker_builder.py
lines 347-474). -/
def readme_content (strategy_name : String) (port : Nat) : String :=
  "# " ++
    strategy_name ++
    " Deployment\n\nThis directory contains a Docker deployment for the `" ++
    strategy_name ++
    "` trading strategy.\n\n## Quick Start\n\n### Using Docker Compose (Recommended)\n\n```bash\ndocker-compose up --build\n```\n\n### Using Build Scripts\n\n```bash\n./build.sh  # Build the Docker image\n./run.sh    # Run the container\n```\n\n### Manual Docker Commands\n\n```bash\n# Build\ndocker build -t " ++
    strategy_name ++
    ":latest .\n\n# Run\ndocker run -d -p " ++
    toString port ++
    ":" ++
    toString port ++
    " --name " ++
    strategy_name ++
    " " ++
    strategy_name ++
    ":latest\n```\n\n## API Usage\n\nOnce running, the API will be available at `http://localhost:" ++
    toString port ++
    "`\n\n### Endpoints\n\n- `GET /` - Root endpoint with strategy info\n- `GET /health` - Health check\n- `GET /info` - Strategy metadata\n- `POST /predict` - Generate trading signals\n- `GET /docs` - Interactive API documentation (Swagger UI)\n\n### Example Request\n\n```bash\ncurl -X POST \"http://localhost:" ++
    toString port ++
    "/predict\" \\\n  -H \"Content-Type: application/json\" \\\n  -d \x27\x7b\n    \"data\": [\n      \x7b\n        \"timestamp\": \"2024-01-01T00:00:00\",\n        \"open\": 100.0,\n        \"high\": 105.0,\n        \"low\": 99.0,\n        \"close\": 103.0,\n        \"volume\": 1000000\n      \x7d,\n      \x7b\n        \"timestamp\": \"2024-01-02T00:00:00\",\n        \"open\": 103.0,\n        \"high\": 107.0,\n        \"low\": 102.0,\n        \"close\": 106.0,\n        \"volume\": 1200000\n      \x7d\n    ]\n  \x7d\x27\n```\n\n### Python Client Example\n\n```python\nimport requests\nimport pandas as pd\n\n# Prepare data\ndata = \x7b\n    \"data\": [\n        \x7b\n            \"timestamp\": \"2024-01-01T00:00:00\",\n            \"open\": 100.0,\n            \"high\": 105.0,\n            \"low\": 99.0,\n            \"close\": 103.0,\n            \"volume\": 1000000\n        \x7d\n    ]\n\x7d\n\n# Make request\nresponse = requests.post(\"http://localhost:" ++
    toString port ++
    "/predict\", json=data)\nresult = response.json()\n\nprint(\"Signals:\", result[\"signals\"])\nprint(\"Metadata:\", result[\"metadata\"])\n```\n\n## Management\n\n```bash\n# View logs\ndocker-compose logs -f\n\n# Stop container\ndocker-compose down\n\n# Restart container\ndocker-compose restart\n\n# Remove container and image\ndocker-compose down --rmi all\n```\n\n## Files\n\n- `Dockerfile` - Container image definition\n- `docker-compose.yml` - Docker Compose configuration\n- `server.py` - FastAPI server implementation\n- `strategy/` - Strategy files (strategy.pkl, metadata.json, requirements.txt)\n- `requirements.txt` - Python dependencies\n- `build.sh` - Build script\n- `run.sh` - Run script\n\n## Customization\n\nTo modify the server behavior, edit `server.py`. The strategy itself is loaded from `./strategy/strategy.pkl`.\n\nTo update the strategy, replace the contents of the `strategy/` directory and rebuild the container.\n"

/-- A deployment directory: the copied bundle under `strategy/` plus the
seven generated artifacts (docker_builder.py lines 53-79). -/
structure Deployment where
  strategy : Bundle
  dockerfile : String
  server_py : String
  requirements_txt : String
  docker_compose : String
  build_sh : String
  run_sh : String
  readme : String

/-- The builder output directory: deployment name to deployment contents. -/
abbrev DeploymentDir := List (String × Deployment)

/-- DockerBuilder.create_deployment (docker_builder.py lines 31-90): raise
ValueError when the strategy directory does not exist (before touching the
output directory); otherwise replace the bundle copy wholesale and
unconditionally rewrite every generated artifact under
`output_dir/strategy_name`. `strategy_dir_contents` is the content of the
path `strategy_dir`, `none` when the path does not exist. Returns the output
directory after the call together with the outcome. -/
def create_deployment (dd : DeploymentDir) (strategy_name : String)
    (strategy_dir : String) (strategy_dir_contents : Option Bundle)
    (port : Nat) (python_version : String) :
    DeploymentDir × Except QPError Unit :=
  match strategy_dir_contents with
  | none => (dd, .error (.notFound ("Strategy directory not found: " ++ strategy_dir)))
  | some b =>
    let deployment : Deployment :=
      { strategy := b
        dockerfile := dockerfile_content python_version port
        server_py := server_py_content
        requirements_txt := String.intercalate "\n" (deployment_requirements b)
        docker_compose := docker_compose_content strategy_name port
        build_sh := build_script_content strategy_name
        run_sh := run_script_content strategy_name
        readme := readme_content strategy_name port }
    (setEntry strategy_name deployment dd, .ok ())

/-- A concrete strategy callable used to exercise the round trip. -/
def c1_func : Callable := fun _ => Except.ok [some 1, none]

/-- A concrete one-row OHLC input with a close column. -/
def c1_frame : DataFrame := ⟨["close"], [[some 2]]⟩

/-- A concrete callable that always raises with message "boom". -/
def c3_fail_func : Callable := fun _ => Except.error "boom"

/-- A concrete callable that always succeeds. -/
def c3_ok_func : Callable := fun _ => Except.ok []

/-- A concrete non-empty frame lacking a close-equivalent column. -/
def c3_noclose : DataFrame := ⟨["open"], [[some 1]]⟩

theorem setEntry_mem {α : Type} (k : String) (v : α) :
    ∀ l : List (String × α), (k, v) ∈ setEntry k v l := by
  intro l
  induction l with
  | nil => simp [setEntry]
  | cons p rest ih =>
    obtain ⟨k', v'⟩ := p
    by_cases h : k' = k
    · simp [setEntry, h]
    · simp only [setEntry, if_neg h]
      exact List.mem_cons_of_mem _ ih

theorem lookupEntry_setEntry {α : Type} (k : String) (v : α) :
    ∀ l : List (String × α), lookupEntry k (setEntry k v l) = some v := by
  intro l
  induction l with
  | nil => simp [setEntry, lookupEntry]
  | cons p rest ih =>
    obtain ⟨k', v'⟩ := p
    by_cases h : k' = k
    · simp [setEntry, lookupEntry, h]
    · simp [setEntry, lookupEntry, h, ih]

theorem setEntry_idem {α : Type} (k : String) (v : α) :
    ∀ l : List (String × α), setEntry k v (setEntry k v l) = setEntry k v l := by
  intro l
  induction l with
  | nil => simp [setEntry]
  | cons p rest ih =>
    obtain ⟨k', v'⟩ := p
    by_cases h : k' = k
    · simp [setEntry, h]
    · simp [setEntry, h, ih]

/-- Claim C1: saving a callable and loading it back — through load_strategy or
through a StrategyContainer over the saved bundle — yields the original
callable, and running the container on valid tabular input returns exactly
the value the callable returns on that input (missing values included). -/
theorem save_load_run_round_trip
    (st : PackagerState) (f : Callable) (func_name : String)
    (sourceText : Option String) (name description : String)
    (requirements : Option (List String)) (metadata : Option (List (String × String)))
    (version created_at : String) (output_dir path : String)
    (df : DataFrame) (y : Series)
    (hvalid : validate_data (.frame df) = .ok df)
    (hrun : f df = .ok y) :
    (∃ m, load_strategy (save_strategy st f func_name sourceText name description
        requirements metadata version created_at).1 output_dir name = .ok (f, m)) ∧
    (∃ c, container_load (.dir path (save_strategy st f func_name sourceText name
        description requirements metadata version created_at).2) = .ok c ∧
      container_run c (.frame df) = .ok y) := by
  constructor
  · refine ⟨strategy_metadata func_name sourceText name description requirements
      metadata version created_at, ?_⟩
    simp only [save_strategy, load_strategy, lookupEntry_setEntry]
  · refine ⟨_, rfl, ?_⟩
    simp only [container_run, hvalid, hrun]

/-- Witness for C1: a concrete callable and input flow through save, load and
run unchanged. -/
theorem save_load_run_round_trip_witness :
    (∃ m, load_strategy (save_strategy [] c1_func "sig" none "momentum" "" none
        none "1.0.0" "2024-01-01").1 "./strategies" "momentum" = .ok (c1_func, m)) ∧
    (∃ c, container_load (.dir "./strategies/momentum" (save_strategy [] c1_func "sig" none
        "momentum" "" none none "1.0.0" "2024-01-01").2) = .ok c ∧
      container_run c (.frame c1_frame) = .ok [some 1, none]) :=
  save_load_run_round_trip [] c1_func "sig" none "momentum" "" none none "1.0.0"
    "2024-01-01" "./strategies" "./strategies/momentum" c1_frame [some 1, none] rfl rfl

/-- Claim C2 counterexample: saving with requirements ["pandas>=1.5.0"] writes
a manifest whose line list repeats the pandas pin and is not sorted
ascending. -/
theorem manifest_sorted_counterexample :
    (save_strategy [] (fun _ => Except.ok []) "f" none "s" "" (some ["pandas>=1.5.0"])
        none "1.0.0" "t").2.requirements_txt
      = some (String.intercalate "\n" (all_requirements (some ["pandas>=1.5.0"]))) ∧
    all_requirements (some ["pandas>=1.5.0"])
      = ["pandas>=1.5.0", "numpy>=1.24.0", "dill>=0.3.7", "pandas>=1.5.0"] ∧
    ¬ ((all_requirements (some ["pandas>=1.5.0"])).Nodup ∧
       (all_requirements (some ["pandas>=1.5.0"])).Sorted strLe) :=
  ⟨rfl, rfl, by decide⟩

/-- Claim C2 amended: the bundle manifest lines are exactly the three base
runtime pins followed by the user requirement list in its given order (empty
when the argument is missing or empty); nothing is deduplicated and the lines
are never in ascending order, since the base pins already violate it. -/
theorem manifest_lines_amended (st : PackagerState) (f : Callable)
    (func_name : String) (sourceText : Option String) (name description : String)
    (requirements : Option (List String)) (metadata : Option (List (String × String)))
    (version created_at : String) :
    (save_strategy st f func_name sourceText name description requirements metadata
        version created_at).2.requirements_txt
      = some (String.intercalate "\n" (base_requirements ++ pyOrList requirements [])) ∧
    ¬ (all_requirements requirements).Sorted strLe := by
  refine ⟨rfl, fun h => ?_⟩
  have h2 : List.Sorted strLe ("pandas>=1.5.0" :: "numpy>=1.24.0" :: "dill>=0.3.7" ::
      pyOrList requirements []) := h
  have h3 := (List.sorted_cons.mp h2).1 "numpy>=1.24.0" (by simp)
  exact absurd h3 (by decide)

/-- Claim C3: run fails with InvalidInput on non-tabular, empty, or close-less
input, without the held callable influencing the outcome, and wraps an
exception from the callable in ExecutionError carrying the original
message. -/
theorem run_error_contract (f g : Callable) (m : MetaMap) :
    (∀ t, container_run ⟨some f, m⟩ (.nonTabular t)
        = .error (.invalidInput ("Expected pandas DataFrame, got " ++ t)) ∧
      container_run ⟨some f, m⟩ (.nonTabular t) = container_run ⟨some g, m⟩ (.nonTabular t)) ∧
    (∀ df, df.isEmpty = true →
      container_run ⟨some f, m⟩ (.frame df) = .error (.invalidInput "Input data is empty") ∧
      container_run ⟨some f, m⟩ (.frame df) = container_run ⟨some g, m⟩ (.frame df)) ∧
    (∀ df, df.isEmpty = false → "close" ∉ df.columns.map pyLower →
      container_run ⟨some f, m⟩ (.frame df)
        = .error (.invalidInput ("Missing required columns: [\x27close\x27]. Available columns: [" ++
            String.intercalate ", " (df.columns.map (fun c => "\x27" ++ c ++ "\x27")) ++ "]")) ∧
      container_run ⟨some f, m⟩ (.frame df) = container_run ⟨some g, m⟩ (.frame df)) ∧
    (∀ df e, validate_data (.frame df) = .ok df → f df = .error e →
      container_run ⟨some f, m⟩ (.frame df)
        = .error (.executionError ("Error running strategy: " ++ e))) := by
  refine ⟨fun t => ⟨rfl, rfl⟩, fun df h => ?_, fun df h1 h2 => ?_, fun df e hv hf => ?_⟩
  · constructor <;> simp [container_run, validate_data, h]
  · constructor <;> simp [container_run, validate_data, h1, h2]
  · simp [container_run, hv, hf]

/-- Witness for C3 at concrete inputs: a list input, an empty frame, a frame
without a close column, and a callable that raises "boom". -/
theorem run_error_contract_witness :
    (container_run ⟨some c3_fail_func, .empty⟩ (.nonTabular "list")
        = .error (.invalidInput ("Expected pandas DataFrame, got " ++ "list")) ∧
      container_run ⟨some c3_fail_func, .empty⟩ (.nonTabular "list")
        = container_run ⟨some c3_ok_func, .empty⟩ (.nonTabular "list")) ∧
    (container_run ⟨some c3_fail_func, .empty⟩ (.frame ⟨["close"], []⟩)
        = .error (.invalidInput "Input data is empty") ∧
      container_run ⟨some c3_fail_func, .empty⟩ (.frame ⟨["close"], []⟩)
        = container_run ⟨some c3_ok_func, .empty⟩ (.frame ⟨["close"], []⟩)) ∧
    (container_run ⟨some c3_fail_func, .empty⟩ (.frame c3_noclose)
        = .error (.invalidInput ("Missing required columns: [\x27close\x27]. Available columns: [" ++
            String.intercalate ", " (c3_noclose.columns.map (fun c => "\x27" ++ c ++ "\x27")) ++ "]")) ∧
      container_run ⟨some c3_fail_func, .empty⟩ (.frame c3_noclose)
        = container_run ⟨some c3_ok_func, .empty⟩ (.frame c3_noclose)) ∧
    container_run ⟨some c3_fail_func, .empty⟩ (.frame c1_frame)
      = .error (.executionError ("Error running strategy: " ++ "boom")) :=
  ⟨(run_error_contract c3_fail_func c3_ok_func .empty).1 "list",
   (run_error_contract c3_fail_func c3_ok_func .empty).2.1 ⟨["close"], []⟩ rfl,
   (run_error_contract c3_fail_func c3_ok_func .empty).2.2.1 c3_noclose rfl (by decide),
   (run_error_contract c3_fail_func c3_ok_func .empty).2.2.2 c1_frame "boom" rfl rfl⟩

/-- Claim C4: create_deployment on a nonexistent bundle path fails with
NotFound, returns the deployments directory unchanged, and creates no entry
for the strategy name. -/
theorem create_deployment_missing_bundle (dd : DeploymentDir)
    (strategy_name strategy_dir : String) (port : Nat) (python_version : String) :
    (create_deployment dd strategy_name strategy_dir none port python_version).1 = dd ∧
    (create_deployment dd strategy_name strategy_dir none port python_version).2
      = .error (.notFound ("Strategy directory not found: " ++ strategy_dir)) ∧
    lookupEntry strategy_name
        (create_deployment dd strategy_name strategy_dir none port python_version).1
      = lookupEntry strategy_name dd :=
  ⟨rfl, rfl, rfl⟩

/-- Claim C5: the deployment manifest is the deduplicated, ascending-sorted
union of the bundle manifest lines (empty when the file is absent) and the
four fixed server-runtime dependencies. -/
theorem deployment_manifest_sorted_dedup_union (dd : DeploymentDir)
    (strategy_name strategy_dir : String) (b : Bundle) (port : Nat) (python_version : String) :
    (∃ d, lookupEntry strategy_name
        (create_deployment dd strategy_name strategy_dir (some b) port python_version).1
          = some d ∧
      d.requirements_txt = String.intercalate "\n" (deployment_requirements b)) ∧
    (deployment_requirements b).Sorted strLe ∧
    (deployment_requirements b).Nodup ∧
    (∀ s, s ∈ deployment_requirements b ↔
      s ∈ read_requirement_lines b.requirements_txt ∨ s ∈ server_requirements) ∧
    read_requirement_lines none = [] := by
  constructor
  · exact ⟨_, lookupEntry_setEntry _ _ dd, rfl⟩
  refine ⟨List.sorted_insertionSort _ _, ?_, fun s => ?_, rfl⟩
  · exact (List.perm_insertionSort _ _).symm.nodup (List.nodup_dedup _)
  · simp only [deployment_requirements]
    rw [(List.perm_insertionSort _ _).mem_iff, List.mem_dedup, List.mem_append]

/-- Claim C6: container construction fails with NotFound when the pickled
callable file is missing (strategy.pkl under a directory path, or the file
itself for a direct file path), and succeeds with empty metadata when the
callable file is present but metadata.json is absent. -/
theorem container_construction_contract :
    (∀ path md rt, container_load (.dir path ⟨none, md, rt⟩)
        = .error (.notFound ("Strategy file not found: " ++ path ++ "/strategy.pkl"))) ∧
    (∀ path md, container_load (.file path none md)
        = .error (.notFound ("Strategy file not found: " ++ path))) ∧
    (∀ path f rt, container_load (.dir path ⟨some f, none, rt⟩) = .ok ⟨some f, .empty⟩) ∧
    (∀ path f, container_load (.file path (some f) none) = .ok ⟨some f, .empty⟩) :=
  ⟨fun _ _ _ => rfl, fun _ _ => rfl, fun _ _ _ => rfl, fun _ _ => rfl⟩

/-- Claim C7: with no explicit requirement list, the requirement list stored
in the metadata record is the source-scanning heuristic output — one package
name appended per substring-marker hit, in fixed order — and an uncaptured
source yields the empty list. -/
theorem inferred_requirements_heuristic (st : PackagerState) (f : Callable)
    (func_name : String) (sourceText : Option String) (name description : String)
    (metadata : Option (List (String × String))) (version created_at : String) :
    ((save_strategy st f func_name sourceText name description none metadata
        version created_at).2.metadata_json).map StrategyMetadata.requirements
      = some (extract_requirements sourceText) ∧
    extract_requirements none = [] ∧
    (∀ s pkg, pkg ∈ extract_requirements (some s) ↔
      ((pkg = "pandas" ∧ (pySubstr "pandas" s || pySubstr "pd." s) = true) ∨
       (pkg = "numpy" ∧ (pySubstr "numpy" s || pySubstr "np." s) = true) ∨
       (pkg = "scikit-learn" ∧ pySubstr "sklearn" s = true) ∨
       (pkg = "ta" ∧ (pySubstr "ta" s || pySubstr "talib" s) = true))) := by
  refine ⟨rfl, rfl, fun s pkg => ?_⟩
  cases h1 : (pySubstr "pandas" s || pySubstr "pd." s) <;>
  cases h2 : (pySubstr "numpy" s || pySubstr "np." s) <;>
  cases h3 : pySubstr "sklearn" s <;>
  cases h4 : (pySubstr "ta" s || pySubstr "talib" s) <;>
  simp [extract_requirements, h1, h2, h3, h4]

/-- Claim C8: create_deployment is idempotent per invocation — repeating it
with identical arguments leaves the deployments directory exactly as after a
single invocation, and the entry written for the strategy name is determined
by the arguments alone, independent of any prior directory state. -/
theorem create_deployment_idempotent (dd dd2 : DeploymentDir)
    (strategy_name strategy_dir : String) (b : Bundle) (port : Nat) (python_version : String) :
    (create_deployment
        (create_deployment dd strategy_name strategy_dir (some b) port python_version).1
        strategy_name strategy_dir (some b) port python_version).1
      = (create_deployment dd strategy_name strategy_dir (some b) port python_version).1 ∧
    lookupEntry strategy_name
        (create_deployment dd strategy_name strategy_dir (some b) port python_version).1
      = lookupEntry strategy_name
          (create_deployment dd2 strategy_name strategy_dir (some b) port python_version).1 := by
  constructor
  · exact setEntry_idem _ _ dd
  · exact (lookupEntry_setEntry _ _ dd).trans (lookupEntry_setEntry _ _ dd2).symm

/-- Claim C9: after save_strategy, list_strategies on the same output
directory contains a metadata record whose name field equals the given name
exactly. -/
theorem save_then_list_includes_name (st : PackagerState) (f : Callable)
    (func_name : String) (sourceText : Option String) (name description : String)
    (requirements : Option (List String)) (metadata : Option (List (String × String)))
    (version created_at : String) :
    ∃ m, m ∈ list_strategies (save_strategy st f func_name sourceText name description
        requirements metadata version created_at).1 ∧ m.name = name := by
  exact ⟨strategy_metadata func_name sourceText name description requirements
      metadata version created_at,
    List.mem_filterMap.mpr
      ⟨(name, (save_strategy st f func_name sourceText name description requirements
          metadata version created_at).2), setEntry_mem _ _ st, rfl⟩, rfl⟩

/-- Claim C10: passing requirements as an explicit empty list is identical to
omitting the argument — the heuristic fills the metadata requirement list and
the manifest carries only the base pins (the code tests truthiness, not
absence). -/
theorem empty_requirements_list_is_falsy (st : PackagerState) (f : Callable)
    (func_name : String) (sourceText : Option String) (name description : String)
    (metadata : Option (List (String × String))) (version created_at : String) :
    save_strategy st f func_name sourceText name description (some []) metadata
        version created_at
      = save_strategy st f func_name sourceText name description none metadata
          version created_at ∧
    (save_strategy st f func_name sourceText name description (some []) metadata
        version created_at).2.requirements_txt
      = some (String.intercalate "\n" base_requirements) ∧
    ((save_strategy st f func_name sourceText name description (some []) metadata
        version created_at).2.metadata_json).map StrategyMetadata.requirements
      = some (extract_requirements sourceText) :=
  ⟨rfl, rfl, rfl⟩
